import Mathlib

/-!
Shallow embedding of the data-ingestion and aggregation engine of the
`basicdash` dashboard (`src/streamlit_app.py` and
`src/pages/1_📊_Resumo_por_Base.py`).  Pandas dataframes become Lean lists
of records, monetary cells become rationals, and the stateful
`DashboardTecnicos` loader becomes explicit state passing.  Each definition
carries a comment pointing at the source lines it embeds.
-/

namespace Basicdash

/-! ## Characters and string cleaning (the monetary normalizer)

`streamlit_app.py` lines 143-153:
`.str.replace(r'[R$.]', '', regex=True).str.replace(',', '.').str.strip()`
followed by `pd.to_numeric(..., errors='coerce').fillna(0)`. -/

/-- Characters kept by the regex replacement `[R$.] -> ''`:
everything except `R`, `$` and `.` survives. -/
def mantemChar (c : Char) : Bool :=
  !(c = 'R' || c = '$' || c = '.')

/-- The second replacement: every comma becomes a period. -/
def trocaVirgula (c : Char) : Char :=
  if c = ',' then '.' else c

/-- ASCII whitespace, as stripped by `str.strip()`. -/
def espacoBranco (c : Char) : Bool :=
  c = ' ' || c = '\t' || c = '\n' || c = '\r'

/-- `str.strip()`: drop leading and trailing whitespace. -/
def tiraEspacos (l : List Char) : List Char :=
  ((l.dropWhile espacoBranco).reverse.dropWhile espacoBranco).reverse

/-- The character-level cleaning applied to a monetary cell before numeric
parsing: delete `R`, `$`, `.`; turn `,` into `.`; strip whitespace. -/
def limpaValor (s : String) : List Char :=
  tiraEspacos ((s.data.filter mantemChar).map trocaVirgula)

/-! ## Numeric parsing (`pd.to_numeric` on a cleaned string)

Modelled as a parser of finite decimal literals with optional sign and
scientific exponent; any string outside that grammar parses to `none`
(pandas: `NaN`, then `fillna(0)`). -/

/-- Consume a maximal run of digits, returning the accumulated value, the
number of digits consumed, and the rest of the input. -/
def pegaDigitos : List Char → Nat → Nat → Nat × Nat × List Char
  | [], acc, n => (acc, n, [])
  | c :: cs, acc, n =>
    if c.isDigit then pegaDigitos cs (acc * 10 + (c.toNat - 48)) (n + 1)
    else (acc, n, c :: cs)

/-- Parse a scientific exponent suffix (after the `e`/`E`) and apply it to
the mantissa `m`. -/
def parseExpoente (m : ℚ) (cs : List Char) : Option ℚ :=
  let sr : ℤ × List Char :=
    match cs with
    | '+' :: r => (1, r)
    | '-' :: r => (-1, r)
    | _ => (1, cs)
  let der := pegaDigitos sr.2 0 0
  if der.2.1 = 0 ∨ der.2.2 ≠ [] then none
  else some (m * (10 : ℚ) ^ (sr.1 * (der.1 : ℤ)))

/-- Parse an unsigned decimal literal: digits, optional `.` and fractional
digits (at least one digit overall), optional exponent. -/
def parseNumPos (cs : List Char) : Option ℚ :=
  let ir := pegaDigitos cs 0 0
  match ir.2.2 with
  | '.' :: resto =>
    let fr := pegaDigitos resto 0 0
    if ir.2.1 + fr.2.1 = 0 then none
    else
      let m : ℚ := (ir.1 : ℚ) + (fr.1 : ℚ) / (10 : ℚ) ^ fr.2.1
      match fr.2.2 with
      | [] => some m
      | 'e' :: r => parseExpoente m r
      | 'E' :: r => parseExpoente m r
      | _ => none
  | resto =>
    if ir.2.1 = 0 then none
    else
      let m : ℚ := (ir.1 : ℚ)
      match resto with
      | [] => some m
      | 'e' :: r => parseExpoente m r
      | 'E' :: r => parseExpoente m r
      | _ => none

/-- Parse a possibly signed decimal literal. -/
def parseNumero : List Char → Option ℚ
  | '-' :: resto => (parseNumPos resto).map (fun q => -q)
  | '+' :: resto => parseNumPos resto
  | cs => parseNumPos cs

/-- The whole monetary normalization of one cell (lines 143-153): clean the
string, parse it, and map a parse failure to `0` (`errors='coerce'` +
`fillna(0)`). -/
def normalizaValor (s : String) : ℚ :=
  (parseNumero (limpaValor s)).getD 0

/-! ## Group classifier (`GRUPOS_BASES` and `get_grupo_base`, lines 10-54) -/

/-- The static site→group table, in the insertion order of the Python dict. -/
def GRUPOS_BASES : List (String × List String) :=
  [("Instalação",
    ["BASE BAURU", "BASE BOTUCATU", "BASE CAMPINAS", "BASE LIMEIRA",
     "BASE PAULINIA", "BASE PIRACICABA", "BASE RIBEIRAO PRETO",
     "BASE SAO JOSE DO RIO PRETO", "BASE SOROCABA", "BASE SUMARE",
     "GPON BAURU", "GPON RIBEIRAO PRETO"]),
   ("Manutenção",
    ["BASE ARARAS VT", "BASE BOTUCATU VT", "BASE MDU ARARAS",
     "BASE MDU BAURU", "BASE MDU MOGI", "BASE MDU PIRACICABA",
     "BASE MDU SJRP", "BASE PIRACICABA VT", "BASE RIBEIRÃO VT",
     "BASE SERTAOZINHO VT", "BASE SUMARE VT", "BASE VAR BAURU",
     "BASE VAR PIRACICABA", "BASE VAR SUMARE"]),
   ("Desconexão",
    ["DESCONEXAO", "DESCONEXÃO BOTUCATU", "DESCONEXÃO CAMPINAS",
     "DESCONEXAO RIBEIRAO PRETO"])]

/-- The loop body of `get_grupo_base`: scan the table in order, return the
first group whose site list contains `base`. -/
def getGrupoBaseAux : List (String × List String) → String → String
  | [], _ => "Outros"
  | (g, bs) :: resto, base =>
    if base ∈ bs then g else getGrupoBaseAux resto base

/-- `get_grupo_base` (lines 50-54): group of a site, defaulting to
`"Outros"`. -/
def getGrupoBase (base : String) : String :=
  getGrupoBaseAux GRUPOS_BASES base

/-! ## The typed table

One row of the typed table after `carregar_dados` (lines 172-208): the
required columns with their final semantics, plus the derived `GRUPO`
column.  Monetary cells are rationals (the code uses `float32`; exact
rationals model the arithmetic without rounding noise), dates are an
optional day/month/year triple (`NaT` = `none`). -/

structure Registro where
  tecnico : String
  dataTOA : Option (ℕ × ℕ × ℕ)
  contrato : String
  status : String
  tipoServico : String
  valorTecnico : ℚ
  valorEmpresa : ℚ
  base : String
  grupo : String
deriving DecidableEq

/-! ## Sorting and distinct keys (pandas `groupby` / `sort_values`) -/

/-- Stable insertion of one element into a list sorted by `le`. -/
def insercao (le : α → α → Bool) (a : α) : List α → List α
  | [] => [a]
  | b :: l => if le a b then a :: b :: l else b :: insercao le a l

/-- Stable insertion sort by `le`. -/
def ordenaCom (le : α → α → Bool) : List α → List α
  | [] => []
  | a :: l => insercao le a (ordenaCom le l)

/-- Ascending lexical sort of strings (`groupby` key order /
`sort_values('BASE')`). -/
def ordenaStr (l : List String) : List String :=
  ordenaCom (fun a b => decide (a ≤ b)) l

/-! ## Rounding (`round(x, 2)` / `round(x, 1)`)

Modelled with Mathlib's `round` on ℚ; the tie-breaking convention differs
from Python's banker's rounding only at exact half-way points, which none
of the statements below depend on. -/

/-- `round(x, 2)`. -/
def round2 (x : ℚ) : ℚ := ((round (x * 100) : ℤ) : ℚ) / 100

/-- `round(x, 1)`. -/
def round1 (x : ℚ) : ℚ := ((round (x * 10) : ℤ) : ℚ) / 10

/-! ## Base-summary aggregation (`mostrar_tabela_bases`, lines 557-641) -/

/-- One row of the base-summary table after the column rename (line 603):
`BASE, VALOR, CONTRATOS, EQUIPES, VL EQ, EQ_CTTS`. -/
structure LinhaBase where
  base : String
  valor : ℚ
  contratos : ℕ
  equipes : ℕ
  vlEq : ℚ
  eqCtts : ℚ
deriving DecidableEq

/-- The group filter of lines 568-569 (also lines 297-300 of
`analisar_produtividade` and lines 166-167 of the Resumo page). -/
def filtraGrupo (dados : List Registro) (grupo : String) : List Registro :=
  if grupo ≠ "Todos" then dados.filter (fun r => r.grupo = grupo) else dados

/-- The per-base aggregate of lines 572-576 plus the derived ratios of
lines 591-600: `VALOR EMPRESA: sum`, `CONTRATO: count` (row count),
`TECNICO: nunique`, `VL EQ = round(valor/equipes, 2)` and
`EQ_CTTS = round(contratos/equipes, 1)`, each guarded by `equipes > 0`. -/
def agregaBase (dados : List Registro) (b : String) : LinhaBase :=
  let linhas := dados.filter (fun r => r.base = b)
  let valor : ℚ := (linhas.map (fun r => r.valorEmpresa)).sum
  let contratos : ℕ := linhas.length
  let equipes : ℕ := ((linhas.map (fun r => r.tecnico)).dedup).length
  { base := b, valor := valor, contratos := contratos, equipes := equipes,
    vlEq := if 0 < equipes then round2 (valor / (equipes : ℚ)) else 0,
    eqCtts := if 0 < equipes then round1 ((contratos : ℚ) / (equipes : ℚ)) else 0 }

/-- The active-rows filter of lines 579-583: keep a base when its revenue,
row count or technician count is positive. -/
def linhaAtiva (l : LinhaBase) : Bool :=
  decide (0 < l.valor) || decide (0 < l.contratos) || decide (0 < l.equipes)

/-- The per-base rows of the summary: group the (group-filtered) data by
`BASE` in ascending key order, aggregate, and keep active rows
(lines 568-606). -/
def linhasBase (dados : List Registro) (grupo : String) : List LinhaBase :=
  ((ordenaStr (((filtraGrupo dados grupo).map (fun r => r.base)).dedup)).map
    (agregaBase (filtraGrupo dados grupo))).filter linhaAtiva

/-- `dados_agrupados['VALOR'].sum()` over the surviving per-base rows. -/
def somaValor (ls : List LinhaBase) : ℚ := (ls.map (fun l => l.valor)).sum

/-- `dados_agrupados['CONTRATOS'].sum()` over the surviving per-base rows. -/
def somaContratos (ls : List LinhaBase) : ℕ := (ls.map (fun l => l.contratos)).sum

/-- `dados_agrupados['EQUIPES'].sum()` over the surviving per-base rows. -/
def somaEquipes (ls : List LinhaBase) : ℕ := (ls.map (fun l => l.equipes)).sum

/-- The `Total Geral` row of lines 608-616: grand sums of the surviving
per-base rows, with both ratio columns recomputed from those grand sums,
guarded by `EQUIPES.sum() > 0`. -/
def linhaTotal (ls : List LinhaBase) : LinhaBase :=
  { base := "Total Geral", valor := somaValor ls, contratos := somaContratos ls,
    equipes := somaEquipes ls,
    vlEq :=
      if 0 < somaEquipes ls then round2 (somaValor ls / (somaEquipes ls : ℚ))
      else 0,
    eqCtts :=
      if 0 < somaEquipes ls then
        round1 ((somaContratos ls : ℚ) / (somaEquipes ls : ℚ))
      else 0 }

/-- `mostrar_tabela_bases` (lines 557-641), restricted to the data it
returns for display: `none` models the early-return warnings for an empty
input (line 563) or no active rows (line 586); otherwise the per-base rows
followed by the appended total row (line 619). -/
def mostrarTabelaBases (dados : List Registro) (grupo : String) :
    Option (List LinhaBase) :=
  if dados = [] then none
  else if linhasBase dados grupo = [] then none
  else some (linhasBase dados grupo ++ [linhaTotal (linhasBase dados grupo)])

/-! ## Status summary (`analisar_status`, lines 800-812) -/

/-- One row of the `Resumo por Status` table (line 808). -/
structure LinhaStatus where
  status : String
  quantidadeContratos : ℕ
  valorTecnico : ℚ
  valorEmpresa : ℚ
deriving DecidableEq

/-- The per-status aggregate of lines 802-806: `CONTRATO: nunique`
(distinct contract ids), `VALOR TÉCNICO: sum`, `VALOR EMPRESA: sum`. -/
def agregaStatus (dados : List Registro) (s : String) : LinhaStatus :=
  let linhas := dados.filter (fun r => r.status = s)
  { status := s,
    quantidadeContratos := ((linhas.map (fun r => r.contrato)).dedup).length,
    valorTecnico := (linhas.map (fun r => r.valorTecnico)).sum,
    valorEmpresa := (linhas.map (fun r => r.valorEmpresa)).sum }

/-- The `Resumo por Status` table: one aggregate row per distinct status,
in ascending key order. -/
def resumoStatus (dados : List Registro) : List LinhaStatus :=
  (ordenaStr ((dados.map (fun r => r.status)).dedup)).map (agregaStatus dados)

/-! ## Per-technician productivity (`analisar_produtividade`, lines 421-438) -/

/-- One row of the per-technician table (line 432). -/
structure LinhaTecnico where
  tecnico : String
  contratos : ℕ
  valorTecnico : ℚ
  valorEmpresa : ℚ
deriving DecidableEq

/-- The per-technician aggregate of lines 421-430: `CONTRATO: nunique`
(distinct contract ids), `VALOR TÉCNICO: sum`, `VALOR EMPRESA: sum`. -/
def agregaTecnico (dados : List Registro) (t : String) : LinhaTecnico :=
  let linhas := dados.filter (fun r => r.tecnico = t)
  { tecnico := t,
    contratos := ((linhas.map (fun r => r.contrato)).dedup).length,
    valorTecnico := (linhas.map (fun r => r.valorTecnico)).sum,
    valorEmpresa := (linhas.map (fun r => r.valorEmpresa)).sum }

/-- The per-technician productivity table: aggregate per distinct
technician, sort by contract count descending (line 429), and drop
technicians with zero contracts (line 438). -/
def prodTecnico (dados : List Registro) : List LinhaTecnico :=
  (ordenaCom (fun a b => decide (b.contratos ≤ a.contratos))
    ((ordenaStr ((dados.map (fun r => r.tecnico)).dedup)).map
      (agregaTecnico dados))).filter (fun l => decide (0 < l.contratos))

/-! ## Loader pipeline (`carregar_dados_cache_alt` + `carregar_dados`) -/

/-- One raw row as read from the source file: every required column may be
missing (`NaN`), and the textual columns are uninterpreted strings. -/
structure RegistroBruto where
  tecnico : Option String
  dataTOA : Option String
  contrato : Option String
  status : Option String
  tipoServico : Option String
  valorTecnico : Option String
  valorEmpresa : Option String
  base : Option String
deriving DecidableEq

/-- `fillna('Não Informado')` on a categorical cell (lines 157, 165). -/
def preenche (o : Option String) : String :=
  o.getD "Não Informado"

/-- A decimal natural number, or `none` when the string is empty or holds
a non-digit. -/
def lerNat (s : String) : Option ℕ :=
  if s.data ≠ [] ∧ s.data.all Char.isDigit then
    some (s.data.foldl (fun a c => a * 10 + (c.toNat - 48)) 0)
  else none

/-- `pd.to_datetime(..., dayfirst=True, errors='coerce')` (lines 196-200),
modelled on the day-first slash format `d/m/y`: three numeric components
with a plausible day and month, otherwise the null-date marker `none`. -/
def parseDataDia (s : String) : Option (ℕ × ℕ × ℕ) :=
  match (s.splitOn "/").map lerNat with
  | [some d, some m, some y] =>
    if 1 ≤ d ∧ d ≤ 31 ∧ 1 ≤ m ∧ m ≤ 12 then some (d, m, y) else none
  | _ => none

/-- One row through `carregar_dados_cache_alt` (lines 143-166) and the
post-processing of `carregar_dados` (lines 194-206): monetary cells
normalized with parse failures and missing cells mapped to `0`, categorical
cells filled with the sentinel, `BASE` additionally stripped, the date
parsed day-first with failures as `none`, and the derived `GRUPO` column
computed from the cleaned `BASE`. -/
def processaRegistro (r : RegistroBruto) : Registro :=
  let base := String.mk (tiraEspacos (preenche r.base).data)
  { tecnico := preenche r.tecnico,
    dataTOA := r.dataTOA.bind parseDataDia,
    contrato := preenche r.contrato,
    status := preenche r.status,
    tipoServico := preenche r.tipoServico,
    valorTecnico := (r.valorTecnico.map normalizaValor).getD 0,
    valorEmpresa := (r.valorEmpresa.map normalizaValor).getD 0,
    base := base,
    grupo := getGrupoBase base }

/-- The full read-normalize-type pipeline applied to a successfully read
raw file. -/
def processaArquivo (bruto : List RegistroBruto) : List Registro :=
  bruto.map processaRegistro

/-- The file system seen by the loader: `none` models any failing read
(missing file, unsupported extension, or an exception raised while
reading). -/
def SistemaArquivos : Type := String → Option (List RegistroBruto)

/-- The mutable state of a `DashboardTecnicos` instance that
`carregar_dados` touches.  `dados = none` models the *deleted* attribute
(after `del self.dados`, line 182); `dados = some none` models
`self.dados = None`; `dados = some (some t)` a loaded table.  `leituras`
counts how many times the read-normalize pipeline actually ran. -/
structure Estado where
  dados : Option (Option (List Registro))
  cachedFile : Option String
  leituras : ℕ
deriving DecidableEq

/-- The state set by `__init__` (lines 57-60). -/
def estadoNovo : Estado :=
  { dados := some none, cachedFile := none, leituras := 0 }

/-- `carregar_dados` (lines 172-212).  Every path of the `try` block:
the cache-hit early return (line 177), `del self.dados` before a fresh
load (lines 181-183), the read through `carregar_dados_cache_alt` with the
date and group post-processing (lines 186-206), and the `except` that
reports and returns `False` (lines 210-212).  When the `dados` attribute
was deleted, line 177's `self.dados` access raises `AttributeError`, which
the same `except` turns into `False` with the state unchanged. -/
def carregarDados (fs : SistemaArquivos) (s : Estado) (nome : String) :
    Estado × Bool :=
  match s.dados with
  | none => (s, false)
  | some d =>
    if s.cachedFile = some nome ∧ d.isSome then (s, true)
    else
      let s1 : Estado := if d.isSome then { s with dados := none } else s
      match fs nome with
      | none => (s1, false)
      | some bruto =>
        ({ dados := some (some (processaArquivo bruto)),
           cachedFile := some nome,
           leituras := s.leituras + 1 }, true)

/-- A single direct load of a file, outside any cache: what one run of the
read-normalize-type pipeline produces. -/
def cargaDireta (fs : SistemaArquivos) (nome : String) :
    Option (List Registro) :=
  (fs nome).map processaArquivo

/-! ## Report filter application (C5)

Two distinct filter pipelines exist over the same loaded table. -/

/-- The observable outcome of the filter stage of `analisar_produtividade`
(lines 236-332). -/
inductive SaidaProdutividade where
  /-- Line 248: no valid dates at all — error, early return. -/
  | erroSemDatas : SaidaProdutividade
  /-- Line 311: empty status selection — warning `selecione pelo menos um
  status`, early return with no result rows. -/
  | avisoSelecioneStatus : SaidaProdutividade
  /-- Line 331: the filters selected zero rows — warning, early return. -/
  | avisoSemDados : SaidaProdutividade
  /-- The filtered rows the analyses below line 334 consume. -/
  | ok : List Registro → SaidaProdutividade
deriving DecidableEq

/-- Day-first date triple order, by year, then month, then day. -/
def dataLe (a b : ℕ × ℕ × ℕ) : Bool :=
  decide (a.2.2 < b.2.2) ||
    (decide (a.2.2 = b.2.2) &&
      (decide (a.2.1 < b.2.1) ||
        (decide (a.2.1 = b.2.1) && decide (a.1 ≤ b.1))))

/-- The period mask of lines 293-294: `data_min <= DATA_TOA <= data_max`
with `data_min`/`data_max` the extrema of the valid dates; a `NaT` row
compares `False` on both sides. -/
def mascaraPeriodo (minD maxD : ℕ × ℕ × ℕ) (r : Registro) : Bool :=
  match r.dataTOA with
  | none => false
  | some dt => dataLe minD dt && dataLe dt maxD

/-- Minimum of a list of dates under `dataLe`, starting from `d`. -/
def minData (d : ℕ × ℕ × ℕ) : List (ℕ × ℕ × ℕ) → ℕ × ℕ × ℕ
  | [] => d
  | e :: l => minData (if dataLe e d then e else d) l

/-- Maximum of a list of dates under `dataLe`, starting from `d`. -/
def maxData (d : ℕ × ℕ × ℕ) : List (ℕ × ℕ × ℕ) → ℕ × ℕ × ℕ
  | [] => d
  | e :: l => maxData (if dataLe d e then e else d) l

/-- The filter stage of `analisar_produtividade` (lines 246-332): the
valid-dates check, the period/group/base/status masks combined with `&`,
the empty-status early return (lines 308-312), the active-bases pass
(lines 317-328, keeping bases whose row count or revenue sum is positive),
and the empty-result warning (lines 330-332). -/
def filtrosProdutividade (dados : List Registro) (grupo base : String)
    (status : List String) : SaidaProdutividade :=
  let validas := dados.filterMap (fun r => r.dataTOA)
  match validas with
  | [] => .erroSemDatas
  | d0 :: resto =>
    if status = [] then .avisoSelecioneStatus
    else
      let minD := minData d0 resto
      let maxD := maxData d0 resto
      let filtrados := (filtraGrupo dados grupo).filter (fun r =>
        mascaraPeriodo minD maxD r &&
          (decide (base = "Todas") || decide (r.base = base)) &&
          decide (r.status ∈ status))
      let basesAtivas := (((filtrados.map (fun r => r.base)).dedup).filter
        (fun b =>
          let grupoB := filtrados.filter (fun r => r.base = b)
          decide (0 < grupoB.length) ||
            decide (0 < (grupoB.map (fun r => r.valorEmpresa)).sum)))
      let ativos := filtrados.filter (fun r => r.base ∈ basesAtivas)
      if ativos = [] then .avisoSemDados else .ok ativos

/-- The group and base filters of the Resumo-por-Base page
(`pages/1_📊_Resumo_por_Base.py`, lines 166-170). -/
def filtraGrupoBase (dados : List Registro) (grupo base : String) :
    List Registro :=
  let d1 := filtraGrupo dados grupo
  if base ≠ "Todas" then d1.filter (fun r => r.base = base) else d1

/-- The whole filter application of the Resumo-por-Base page
(lines 163-173): group, base, and then — only when the selection is
non-empty (`if status_selecionados:`) — the status membership filter.  An
empty selection leaves the status filter unapplied. -/
def filtrosResumoBase (dados : List Registro) (grupo base : String)
    (status : List String) : List Registro :=
  let d2 := filtraGrupoBase dados grupo base
  if status ≠ [] then d2.filter (fun r => decide (r.status ∈ status)) else d2

/-! ## Helper lemmas -/

theorem mem_insercao {le : α → α → Bool} {x a : α} (l : List α) :
    a ∈ insercao le x l ↔ a = x ∨ a ∈ l := by
  induction l with
  | nil => simp [insercao]
  | cons b t ih =>
    simp only [insercao]
    split
    · simp [List.mem_cons]
    · simp only [List.mem_cons, ih]
      tauto

theorem mem_ordenaCom {le : α → α → Bool} {a : α} (l : List α) :
    a ∈ ordenaCom le l ↔ a ∈ l := by
  induction l with
  | nil => simp [ordenaCom]
  | cons b t ih =>
    simp only [ordenaCom, mem_insercao, List.mem_cons, ih]

theorem mem_ordenaStr {a : String} (l : List String) :
    a ∈ ordenaStr l ↔ a ∈ l :=
  mem_ordenaCom l

/-- A successful `mostrar_tabela_bases` run returns exactly the surviving
per-base rows followed by the total row built from them. -/
theorem mostrarTabelaBases_eq {dados : List Registro} {grupo : String}
    {saida : List LinhaBase} (h : mostrarTabelaBases dados grupo = some saida) :
    saida = linhasBase dados grupo ++ [linhaTotal (linhasBase dados grupo)] ∧
      linhasBase dados grupo ≠ [] := by
  unfold mostrarTabelaBases at h
  split at h
  · exact absurd h (by simp)
  · split at h
    · exact absurd h (by simp)
    · exact ⟨(Option.some.inj h).symm, by assumption⟩

/-- Every member of the per-base row list is the aggregate of its own base
key. -/
theorem mem_linhasBase {dados : List Registro} {grupo : String}
    {l : LinhaBase} (h : l ∈ linhasBase dados grupo) :
    l = agregaBase (filtraGrupo dados grupo) l.base ∧ linhaAtiva l = true := by
  unfold linhasBase at h
  obtain ⟨hmem, hat⟩ := List.mem_filter.mp h
  obtain ⟨b, _, hb⟩ := List.mem_map.mp hmem
  have hbase : l.base = b := by
    rw [← hb]
    rfl
  exact ⟨by rw [hbase, ← hb], hat⟩

/-- The guarded-ratio shape shared by every row `mostrar_tabela_bases`
emits: each ratio is the rounded quotient when the technician count is
positive and `0` otherwise. -/
def razoesGuardadas (l : LinhaBase) : Prop :=
  (0 < l.equipes →
      l.vlEq = round2 (l.valor / (l.equipes : ℚ)) ∧
      l.eqCtts = round1 ((l.contratos : ℚ) / (l.equipes : ℚ))) ∧
    (l.equipes = 0 → l.vlEq = 0 ∧ l.eqCtts = 0)

theorem razoesGuardadas_mk (b : String) (v : ℚ) (c e : ℕ) :
    razoesGuardadas
      { base := b, valor := v, contratos := c, equipes := e,
        vlEq := if 0 < e then round2 (v / (e : ℚ)) else 0,
        eqCtts := if 0 < e then round1 ((c : ℚ) / (e : ℚ)) else 0 } := by
  constructor
  · intro hpos
    dsimp only
    rw [if_pos hpos, if_pos hpos]
    exact ⟨rfl, rfl⟩
  · intro hzero
    dsimp only at hzero ⊢
    rw [if_neg (by omega), if_neg (by omega)]
    exact ⟨rfl, rfl⟩

theorem razoesGuardadas_agregaBase (dados : List Registro) (b : String) :
    razoesGuardadas (agregaBase dados b) :=
  razoesGuardadas_mk b _ _ _

theorem razoesGuardadas_linhaTotal (ls : List LinhaBase) :
    razoesGuardadas (linhaTotal ls) :=
  razoesGuardadas_mk "Total Geral" _ _ _

/-- In a per-base aggregate the distinct-technician count never exceeds the
row count. -/
theorem equipes_le_contratos (dados : List Registro) (b : String) :
    (agregaBase dados b).equipes ≤ (agregaBase dados b).contratos := by
  show ((_ : List String).dedup).length ≤ (List.length _)
  calc ((((dados.filter (fun r => r.base = b)).map
        (fun r => r.tecnico)).dedup)).length
      ≤ ((dados.filter (fun r => r.base = b)).map
        (fun r => r.tecnico)).length :=
        (List.dedup_sublist _).length_le
    _ = (dados.filter (fun r => r.base = b)).length := List.length_map _ _

/-! ## Claims about the base-summary total row -/

/-- Example dataset for the total-row claims: base `A` has two rows of one
technician (revenue 100 each), base `B` two rows of two technicians
(revenue 10 each), so the grand-total ratios differ from the mean of the
per-base ratios. -/
def exemploAssimetrico : List Registro :=
  [{ tecnico := "X", dataTOA := none, contrato := "c1", status := "OK",
     tipoServico := "INST", valorTecnico := 0, valorEmpresa := 100,
     base := "A", grupo := "Outros" },
   { tecnico := "X", dataTOA := none, contrato := "c2", status := "OK",
     tipoServico := "INST", valorTecnico := 0, valorEmpresa := 100,
     base := "A", grupo := "Outros" },
   { tecnico := "P", dataTOA := none, contrato := "c3", status := "OK",
     tipoServico := "INST", valorTecnico := 0, valorEmpresa := 10,
     base := "B", grupo := "Outros" },
   { tecnico := "Q", dataTOA := none, contrato := "c4", status := "OK",
     tipoServico := "INST", valorTecnico := 0, valorEmpresa := 10,
     base := "B", grupo := "Outros" }]

/-- C1: whenever `mostrar_tabela_bases` produces output, it is the
surviving per-base rows with the `Total Geral` row appended last, and that
row's ratio columns are recomputed from the grand totals of the surviving
rows — `VL EQ = round(ΣVALOR / ΣEQUIPES, 2)` and
`EQ_CTTS = round(ΣCONTRATOS / ΣEQUIPES, 1)` when `ΣEQUIPES` is positive and
`0` otherwise — rather than being averaged from the per-base ratio
columns. -/
theorem totalGeral_recalculado_das_somas (dados : List Registro)
    (grupo : String) (saida : List LinhaBase)
    (h : mostrarTabelaBases dados grupo = some saida) :
    ∃ linhas : List LinhaBase,
      saida = linhas ++ [linhaTotal linhas] ∧
      (linhaTotal linhas).base = "Total Geral" ∧
      (linhaTotal linhas).valor = somaValor linhas ∧
      (linhaTotal linhas).contratos = somaContratos linhas ∧
      (linhaTotal linhas).equipes = somaEquipes linhas ∧
      (linhaTotal linhas).vlEq =
        (if 0 < somaEquipes linhas then
          round2 (somaValor linhas / (somaEquipes linhas : ℚ))
         else 0) ∧
      (linhaTotal linhas).eqCtts =
        (if 0 < somaEquipes linhas then
          round1 ((somaContratos linhas : ℚ) / (somaEquipes linhas : ℚ))
         else 0) := by
  obtain ⟨hs, -⟩ := mostrarTabelaBases_eq h
  exact ⟨linhasBase dados grupo, hs, rfl, rfl, rfl, rfl, rfl, rfl⟩

/-- Witness for C1 on the asymmetric example: the total row shows
`VL EQ = round(220/3, 2) = 73.33` and `EQ_CTTS = round(4/3, 1) = 1.3`,
the grand-sum ratios (the means of the per-base ratios would have been
`105` and `1.5`). -/
theorem totalGeral_recalculado_das_somas_witness :
    ∃ linhas : List LinhaBase,
      (linhasBase exemploAssimetrico "Todos" ++
        [linhaTotal (linhasBase exemploAssimetrico "Todos")]) =
          linhas ++ [linhaTotal linhas] ∧
      (linhaTotal linhas).base = "Total Geral" ∧
      (linhaTotal linhas).valor = somaValor linhas ∧
      (linhaTotal linhas).contratos = somaContratos linhas ∧
      (linhaTotal linhas).equipes = somaEquipes linhas ∧
      (linhaTotal linhas).vlEq =
        (if 0 < somaEquipes linhas then
          round2 (somaValor linhas / (somaEquipes linhas : ℚ))
         else 0) ∧
      (linhaTotal linhas).eqCtts =
        (if 0 < somaEquipes linhas then
          round1 ((somaContratos linhas : ℚ) / (somaEquipes linhas : ℚ))
         else 0) :=
  totalGeral_recalculado_das_somas exemploAssimetrico "Todos"
    (linhasBase exemploAssimetrico "Todos" ++
      [linhaTotal (linhasBase exemploAssimetrico "Todos")])
    (by with_unfolding_all rfl)

/-- C3: in the base-summary output no partition row has both its contract
count and its revenue sum exactly zero, and every row — partitions and
total alike — carries ratio columns computed under the `technician count
> 0` guard (the rounded quotient when positive, `0` when zero), so no
ratio cell results from a division by zero. -/
theorem linhasAtivas_sem_divisao_por_zero (dados : List Registro)
    (grupo : String) (saida : List LinhaBase)
    (h : mostrarTabelaBases dados grupo = some saida) :
    (∀ l ∈ saida.dropLast, ¬(l.contratos = 0 ∧ l.valor = 0)) ∧
      ∀ l ∈ saida, razoesGuardadas l := by
  obtain ⟨hs, -⟩ := mostrarTabelaBases_eq h
  subst hs
  constructor
  · intro l hl
    rw [List.dropLast_concat] at hl
    obtain ⟨hag, hat⟩ := mem_linhasBase hl
    unfold linhaAtiva at hat
    simp only [Bool.or_eq_true, decide_eq_true_eq] at hat
    rcases hat with (hv | hc) | he
    · rintro ⟨-, h0⟩
      rw [h0] at hv
      exact lt_irrefl 0 hv
    · rintro ⟨h0, -⟩
      rw [h0] at hc
      exact lt_irrefl 0 hc
    · have hle := equipes_le_contratos (filtraGrupo dados grupo) l.base
      rw [← hag] at hle
      rintro ⟨h0, -⟩
      omega
  · intro l hl
    rcases List.mem_append.mp hl with hl | hl
    · obtain ⟨hag, -⟩ := mem_linhasBase hl
      rw [hag]
      exact razoesGuardadas_agregaBase _ _
    · rw [List.mem_singleton] at hl
      rw [hl]
      exact razoesGuardadas_linhaTotal _

/-- Witness for C3 on the asymmetric example. -/
theorem linhasAtivas_sem_divisao_por_zero_witness :
    (∀ l ∈ (linhasBase exemploAssimetrico "Todos" ++
        [linhaTotal (linhasBase exemploAssimetrico "Todos")]).dropLast,
      ¬(l.contratos = 0 ∧ l.valor = 0)) ∧
      ∀ l ∈ linhasBase exemploAssimetrico "Todos" ++
        [linhaTotal (linhasBase exemploAssimetrico "Todos")],
        razoesGuardadas l :=
  linhasAtivas_sem_divisao_por_zero exemploAssimetrico "Todos"
    (linhasBase exemploAssimetrico "Todos" ++
      [linhaTotal (linhasBase exemploAssimetrico "Todos")])
    (by with_unfolding_all rfl)

/-- `TECNICO: nunique` within one base of the table: the number of distinct
technicians among the rows of that base. -/
def contagemTecnicosBase (dados : List Registro) (b : String) : ℕ :=
  (((dados.filter (fun r => r.base = b)).map (fun r => r.tecnico)).dedup).length

/-- Example dataset for C10: one technician `T` working in the two bases
`A` and `B` (one row and 100 of revenue in each). -/
def exemploDuplicado : List Registro :=
  [{ tecnico := "T", dataTOA := none, contrato := "c1", status := "OK",
     tipoServico := "INST", valorTecnico := 0, valorEmpresa := 100,
     base := "A", grupo := "Outros" },
   { tecnico := "T", dataTOA := none, contrato := "c2", status := "OK",
     tipoServico := "INST", valorTecnico := 0, valorEmpresa := 100,
     base := "B", grupo := "Outros" }]

/-- C10: the total row's `EQUIPES` is the sum of the per-base distinct
technician counts (each per-base `EQUIPES` being the distinct count within
that base), not the distinct technician count over the whole filtered
table; on the two-base example with one shared technician the total row
counts `EQUIPES = 2` against `1` table-wide distinct technician, and its
`VL EQ` is strictly smaller than the same ratio over table-wide distinct
technicians. -/
theorem equipesTotal_soma_das_bases (dados : List Registro) (grupo : String)
    (saida : List LinhaBase) (h : mostrarTabelaBases dados grupo = some saida) :
    (∃ linhas : List LinhaBase,
      saida = linhas ++ [linhaTotal linhas] ∧
      (linhaTotal linhas).equipes = somaEquipes linhas ∧
      ∀ l ∈ linhas,
        l.equipes = contagemTecnicosBase (filtraGrupo dados grupo) l.base) ∧
    ((linhaTotal (linhasBase exemploDuplicado "Todos")).equipes = 2 ∧
      ((exemploDuplicado.map (fun r => r.tecnico)).dedup).length = 1 ∧
      (linhaTotal (linhasBase exemploDuplicado "Todos")).vlEq <
        round2 (somaValor (linhasBase exemploDuplicado "Todos") /
          (((exemploDuplicado.map (fun r => r.tecnico)).dedup).length : ℚ))) := by
  constructor
  · obtain ⟨hs, -⟩ := mostrarTabelaBases_eq h
    refine ⟨linhasBase dados grupo, hs, rfl, ?_⟩
    intro l hl
    obtain ⟨hag, -⟩ := mem_linhasBase hl
    rw [hag]
    rfl
  · refine ⟨by with_unfolding_all rfl, by with_unfolding_all rfl, ?_⟩
    have h1 : (linhaTotal (linhasBase exemploDuplicado "Todos")).vlEq = 100 := by
      with_unfolding_all rfl
    have h2 : round2 (somaValor (linhasBase exemploDuplicado "Todos") /
        (((exemploDuplicado.map (fun r => r.tecnico)).dedup).length : ℚ)) =
          200 := by
      with_unfolding_all rfl
    rw [h1, h2]
    norm_num

/-- Witness for C10 on the duplicated-technician example itself. -/
theorem equipesTotal_soma_das_bases_witness :
    (∃ linhas : List LinhaBase,
      (linhasBase exemploDuplicado "Todos" ++
        [linhaTotal (linhasBase exemploDuplicado "Todos")]) =
          linhas ++ [linhaTotal linhas] ∧
      (linhaTotal linhas).equipes = somaEquipes linhas ∧
      ∀ l ∈ linhas,
        l.equipes =
          contagemTecnicosBase (filtraGrupo exemploDuplicado "Todos") l.base) ∧
    ((linhaTotal (linhasBase exemploDuplicado "Todos")).equipes = 2 ∧
      ((exemploDuplicado.map (fun r => r.tecnico)).dedup).length = 1 ∧
      (linhaTotal (linhasBase exemploDuplicado "Todos")).vlEq <
        round2 (somaValor (linhasBase exemploDuplicado "Todos") /
          (((exemploDuplicado.map (fun r => r.tecnico)).dedup).length : ℚ))) :=
  equipesTotal_soma_das_bases exemploDuplicado "Todos"
    (linhasBase exemploDuplicado "Todos" ++
      [linhaTotal (linhasBase exemploDuplicado "Todos")])
    (by with_unfolding_all rfl)

/-- Every row of the status summary is the aggregate of its own status
key. -/
theorem mem_resumoStatus {dados : List Registro} {l : LinhaStatus}
    (h : l ∈ resumoStatus dados) : l = agregaStatus dados l.status := by
  unfold resumoStatus at h
  obtain ⟨s, -, hs⟩ := List.mem_map.mp h
  subst hs
  rfl

/-- Every row of the per-technician table is the aggregate of its own
technician key. -/
theorem mem_prodTecnico {dados : List Registro} {l : LinhaTecnico}
    (h : l ∈ prodTecnico dados) : l = agregaTecnico dados l.tecnico := by
  unfold prodTecnico at h
  obtain ⟨hmem, -⟩ := List.mem_filter.mp h
  rw [mem_ordenaCom] at hmem
  obtain ⟨t, -, ht⟩ := List.mem_map.mp hmem
  subst ht
  rfl

/-- C7: the contract-count convention is fixed per report — every row of
the base summary counts contracts by row count of its base's partition,
while every row of the status summary and of the per-technician
productivity table counts contracts by number of distinct contract ids in
its partition. -/
theorem convencao_de_contagem_por_relatorio :
    (∀ (dados : List Registro) (grupo : String), ∀ l ∈ linhasBase dados grupo,
      l.contratos =
        ((filtraGrupo dados grupo).filter (fun r => r.base = l.base)).length) ∧
    (∀ dados : List Registro, ∀ l ∈ resumoStatus dados,
      l.quantidadeContratos =
        (((dados.filter (fun r => r.status = l.status)).map
          (fun r => r.contrato)).dedup).length) ∧
    (∀ dados : List Registro, ∀ l ∈ prodTecnico dados,
      l.contratos =
        (((dados.filter (fun r => r.tecnico = l.tecnico)).map
          (fun r => r.contrato)).dedup).length) := by
  refine ⟨?_, ?_, ?_⟩
  · intro dados grupo l hl
    obtain ⟨hag, -⟩ := mem_linhasBase hl
    rw [hag]
    rfl
  · intro dados l hl
    rw [mem_resumoStatus hl]
    rfl
  · intro dados l hl
    rw [mem_prodTecnico hl]
    rfl

/-- Witness for C7, instantiated on the asymmetric example: base `A` counts
2 contracts by rows, status `OK` and technician `X` count distinct
contract ids. -/
theorem convencao_de_contagem_witness :
    ((agregaBase (filtraGrupo exemploAssimetrico "Todos") "A").contratos =
      ((filtraGrupo exemploAssimetrico "Todos").filter (fun r =>
        r.base =
          (agregaBase (filtraGrupo exemploAssimetrico "Todos") "A").base)).length) ∧
    ((agregaStatus exemploAssimetrico "OK").quantidadeContratos =
      (((exemploAssimetrico.filter (fun r =>
          r.status = (agregaStatus exemploAssimetrico "OK").status)).map
        (fun r => r.contrato)).dedup).length) ∧
    ((agregaTecnico exemploAssimetrico "X").contratos =
      (((exemploAssimetrico.filter (fun r =>
          r.tecnico = (agregaTecnico exemploAssimetrico "X").tecnico)).map
        (fun r => r.contrato)).dedup).length) :=
  ⟨convencao_de_contagem_por_relatorio.1 exemploAssimetrico "Todos"
      (agregaBase (filtraGrupo exemploAssimetrico "Todos") "A")
      (by with_unfolding_all exact List.mem_cons_self _ _),
   convencao_de_contagem_por_relatorio.2.1 exemploAssimetrico
      (agregaStatus exemploAssimetrico "OK")
      (by with_unfolding_all exact List.mem_cons_self _ _),
   convencao_de_contagem_por_relatorio.2.2 exemploAssimetrico
      (agregaTecnico exemploAssimetrico "X")
      (by with_unfolding_all exact List.mem_cons_self _ _)⟩

/-- On a table whose group names never collide with the default label, the
classifier's scan returns `"Outros"` exactly when the value is in none of
the site lists. -/
theorem getGrupoBaseAux_outros :
    ∀ (t : List (String × List String)) (b : String),
      (∀ p ∈ t, p.1 ≠ "Outros") →
      (getGrupoBaseAux t b = "Outros" ↔ ∀ p ∈ t, b ∉ p.2)
  | [], b, _ => by simp [getGrupoBaseAux]
  | (g, bs) :: t, b, hn => by
    simp only [getGrupoBaseAux]
    by_cases hb : b ∈ bs
    · rw [if_pos hb]
      constructor
      · intro hg
        exact absurd hg (hn (g, bs) (List.mem_cons_self _ _))
      · intro hall
        exact absurd hb (hall (g, bs) (List.mem_cons_self _ _))
    · rw [if_neg hb,
        getGrupoBaseAux_outros t b (fun q hq => hn q (List.mem_cons_of_mem _ hq))]
      constructor
      · intro hall q hq
        rcases List.mem_cons.mp hq with h | h
        · rw [h]
          exact hb
        · exact hall q h
      · intro hall q hq
        exact hall q (List.mem_cons_of_mem _ hq)

/-- C8: `get_grupo_base` is total — it returns a label for every input,
including the empty string and the `'Não Informado'` sentinel — and it
returns the default `"Outros"` exactly when the input occurs in none of
the groups' site lists. -/
theorem getGrupoBase_total_e_outros (b : String) :
    (getGrupoBase b = "Outros" ↔ ∀ p ∈ GRUPOS_BASES, b ∉ p.2) ∧
    getGrupoBase "" = "Outros" ∧
    getGrupoBase "Não Informado" = "Outros" :=
  ⟨getGrupoBaseAux_outros GRUPOS_BASES b (by decide), by rfl, by rfl⟩

/-- Witness for C8: a mapped site gets its group, an unmapped one gets the
default. -/
theorem getGrupoBase_total_e_outros_witness :
    ¬(getGrupoBase "BASE BAURU" = "Outros") ∧ getGrupoBase "XYZ" = "Outros" :=
  ⟨fun h => by
      have := (getGrupoBase_total_e_outros "BASE BAURU").1.mp h
        ("Instalação", GRUPOS_BASES.head!.2) (by decide)
      exact this (by decide),
   (getGrupoBase_total_e_outros "XYZ").1.mpr (by decide)⟩

/-- C2: the normalizer turns the Brazilian-format currency string
`"R$ 1.234,56"` into the number `1234.56`, and every string whose cleaned
form fails the numeric parse normalizes to exactly `0`, never to a missing
or non-numeric value (outputs live in ℚ, so they are numeric by
construction). -/
theorem normalizaValor_brasileiro_e_falha_zero :
    normalizaValor "R$ 1.234,56" = 1234.56 ∧
    ∀ s : String, parseNumero (limpaValor s) = none → normalizaValor s = 0 :=
  ⟨by with_unfolding_all rfl,
   fun s h => by
    unfold normalizaValor
    rw [h]
    rfl⟩

/-- Witness for C2: the unparseable string `"abc"` normalizes to `0`. -/
theorem normalizaValor_brasileiro_e_falha_zero_witness :
    normalizaValor "abc" = 0 :=
  normalizaValor_brasileiro_e_falha_zero.2 "abc" (by with_unfolding_all rfl)

/-- Membership in a cleaned monetary string comes from a surviving,
possibly comma-swapped character of the original string. -/
theorem mem_limpaValor {c : Char} {s : String} (h : c ∈ limpaValor s) :
    ∃ c' ∈ s.data, mantemChar c' = true ∧ trocaVirgula c' = c := by
  unfold limpaValor tiraEspacos at h
  rw [List.mem_reverse] at h
  have h1 := (List.dropWhile_sublist _).subset h
  rw [List.mem_reverse] at h1
  have h2 := (List.dropWhile_sublist _).subset h1
  obtain ⟨c', hc', he⟩ := List.mem_map.mp h2
  obtain ⟨hm, hk⟩ := List.mem_filter.mp hc'
  exact ⟨c', hm, hk, he⟩

/-- C9: the cleaning step deletes every occurrence of `R`, `$` and `.`
anywhere in the cell — after it no `R` or `$` remains, and any remaining
period can only stem from a decimal comma of the input — so a
period-decimal input such as `"1234.56"` normalizes to `123456` (the
period is treated as a thousands separator), and a letter `R` in the
middle of the text, as in `"1R2"`, is removed before parsing. -/
theorem limpaValor_remove_R_cifrao_ponto :
    (∀ s : String, 'R' ∉ limpaValor s ∧ '$' ∉ limpaValor s ∧
      ∀ c ∈ limpaValor s, c = '.' → ',' ∈ s.data) ∧
    normalizaValor "1234.56" = 123456 ∧
    normalizaValor "1R2" = 12 := by
  refine ⟨fun s => ⟨?_, ?_, ?_⟩, by with_unfolding_all rfl,
    by with_unfolding_all rfl⟩
  · intro h
    obtain ⟨c', -, hk, he⟩ := mem_limpaValor h
    unfold trocaVirgula at he
    split at he
    · exact absurd he (by decide)
    · rw [he] at hk
      exact absurd hk (by decide)
  · intro h
    obtain ⟨c', -, hk, he⟩ := mem_limpaValor h
    unfold trocaVirgula at he
    split at he
    · exact absurd he (by decide)
    · rw [he] at hk
      exact absurd hk (by decide)
  · intro c hc hponto
    obtain ⟨c', hc', hk, he⟩ := mem_limpaValor hc
    rw [hponto] at he
    unfold trocaVirgula at he
    split at he
    · subst c'
      exact hc'
    · rw [he] at hk
      exact absurd hk (by decide)

/-- Witness for C9: the cleaned form of `"R$ 1.234,56"` keeps no `R`, no
`$`, and its period stems from the decimal comma of the input. -/
theorem limpaValor_remove_R_cifrao_ponto_witness :
    'R' ∉ limpaValor "R$ 1.234,56" ∧ '$' ∉ limpaValor "R$ 1.234,56" ∧
      ∀ c ∈ limpaValor "R$ 1.234,56", c = '.' → ',' ∈ ("R$ 1.234,56" : String).data :=
  limpaValor_remove_R_cifrao_ponto.1 "R$ 1.234,56"

/-- C4: loading the same file name twice is idempotent.  From a fresh
instance, a successful load reads the file once and stores exactly what a
single direct run of the pipeline produces; the second call with the same
name is a cache hit that returns `True` with the state — table and read
count included — unchanged, so nothing is re-read or re-normalized.
Moreover, from any state, a call that returned `True` makes the next call
with the same name return `True` without touching the state. -/
theorem carregarDados_idempotente (fs : SistemaArquivos) (nome : String)
    (h : (fs nome).isSome) :
    (carregarDados fs estadoNovo nome).2 = true ∧
    (carregarDados fs estadoNovo nome).1.dados = some (cargaDireta fs nome) ∧
    (carregarDados fs estadoNovo nome).1.leituras = 1 ∧
    carregarDados fs (carregarDados fs estadoNovo nome).1 nome =
      ((carregarDados fs estadoNovo nome).1, true) ∧
    ∀ s : Estado, (carregarDados fs s nome).2 = true →
      carregarDados fs (carregarDados fs s nome).1 nome =
        ((carregarDados fs s nome).1, true) := by
  obtain ⟨bruto, hb⟩ := Option.isSome_iff_exists.mp h
  have hgeral : ∀ s : Estado, (carregarDados fs s nome).2 = true →
      carregarDados fs (carregarDados fs s nome).1 nome =
        ((carregarDados fs s nome).1, true) := by
    intro s hok
    obtain ⟨sd, sc, sl⟩ := s
    match sd with
    | none => simp [carregarDados] at hok
    | some d =>
      by_cases hhit : sc = some nome ∧ d.isSome = true
      · have h1 : carregarDados fs ⟨some d, sc, sl⟩ nome =
            (⟨some d, sc, sl⟩, true) := by
          simp only [carregarDados]
          rw [if_pos hhit]
        rw [h1]
        exact h1
      · match hf : fs nome with
        | none =>
          have h1 : (carregarDados fs ⟨some d, sc, sl⟩ nome).2 = false := by
            simp only [carregarDados]
            rw [if_neg hhit, hf]
          rw [h1] at hok
          exact absurd hok (by simp)
        | some bruto2 =>
          have h1 : carregarDados fs ⟨some d, sc, sl⟩ nome =
              (⟨some (some (processaArquivo bruto2)), some nome, sl + 1⟩,
                true) := by
            simp only [carregarDados]
            rw [if_neg hhit, hf]
          rw [h1]
          simp [carregarDados]
  have hprimeiro : carregarDados fs estadoNovo nome =
      ({ dados := some (some (processaArquivo bruto)),
         cachedFile := some nome, leituras := 1 }, true) := by
    simp only [carregarDados, estadoNovo]
    rw [if_neg (by simp), hb]
  refine ⟨?_, ?_, ?_, ?_, hgeral⟩
  · rw [hprimeiro]
  · rw [hprimeiro]
    unfold cargaDireta
    rw [hb]
    rfl
  · rw [hprimeiro]
  · exact hgeral estadoNovo (by rw [hprimeiro])

/-- A one-row raw file used by the loader examples. -/
def brutoExemplo : RegistroBruto :=
  { tecnico := some "X", dataTOA := some "01/02/2024", contrato := some "c1",
    status := some "OK", tipoServico := some "INST",
    valorTecnico := some "R$ 10,00", valorEmpresa := some "R$ 20,00",
    base := some "BASE BAURU" }

/-- A file system with one readable file `a.csv`; every other name fails to
read. -/
def fsExemplo : SistemaArquivos := fun nome =>
  if nome = "a.csv" then some [brutoExemplo] else none

/-- Witness for C4 on the one-file example file system. -/
theorem carregarDados_idempotente_witness :
    (carregarDados fsExemplo estadoNovo "a.csv").2 = true ∧
    (carregarDados fsExemplo estadoNovo "a.csv").1.dados =
      some (cargaDireta fsExemplo "a.csv") ∧
    (carregarDados fsExemplo estadoNovo "a.csv").1.leituras = 1 ∧
    carregarDados fsExemplo (carregarDados fsExemplo estadoNovo "a.csv").1
        "a.csv" =
      ((carregarDados fsExemplo estadoNovo "a.csv").1, true) ∧
    ∀ s : Estado, (carregarDados fsExemplo s "a.csv").2 = true →
      carregarDados fsExemplo (carregarDados fsExemplo s "a.csv").1 "a.csv" =
        ((carregarDados fsExemplo s "a.csv").1, true) :=
  carregarDados_idempotente fsExemplo "a.csv" (by with_unfolding_all rfl)

/-- Counterexample to C6: load `a.csv` successfully, then fail to load
`b.csv`.  The failed call does return `False`, but `del self.dados` has
already run: the previously loaded table is gone (`dados` is the deleted
attribute, not the old table), `cached_file` still names `a.csv`, and the
subsequent reload of `a.csv` returns `False` instead of serving the
previously cached table. -/
theorem carregarDados_falha_apaga_tabela_anterior :
    (carregarDados fsExemplo estadoNovo "a.csv").2 = true ∧
    (carregarDados fsExemplo (carregarDados fsExemplo estadoNovo "a.csv").1
        "b.csv").2 = false ∧
    (carregarDados fsExemplo (carregarDados fsExemplo estadoNovo "a.csv").1
        "b.csv").1.dados = none ∧
    (carregarDados fsExemplo (carregarDados fsExemplo estadoNovo "a.csv").1
        "b.csv").1.cachedFile = some "a.csv" ∧
    carregarDados fsExemplo
        (carregarDados fsExemplo (carregarDados fsExemplo estadoNovo "a.csv").1
          "b.csv").1 "a.csv" =
      ((carregarDados fsExemplo (carregarDados fsExemplo estadoNovo "a.csv").1
          "b.csv").1, false) :=
  ⟨by with_unfolding_all rfl, by with_unfolding_all rfl,
   by with_unfolding_all rfl, by with_unfolding_all rfl,
   by with_unfolding_all rfl⟩

/-- C6 amended: whenever a load fails on a cache miss, `carregar_dados`
catches the error, returns `False`, does not populate `dados` with a
partial new table, does not advance the read count, and leaves
`cached_file` untouched; but when a table was previously loaded, that
table has already been deleted by the time of the failure (`dados` ends as
the deleted attribute instead of the previous table), and from such a
state every subsequent call returns `False` leaving the state unchanged. -/
theorem carregarDados_falha_sem_resultado_parcial (fs : SistemaArquivos)
    (s : Estado) (nome : String) (d : Option (List Registro))
    (hd : s.dados = some d)
    (hmiss : ¬(s.cachedFile = some nome ∧ d.isSome = true))
    (hfail : fs nome = none) :
    (carregarDados fs s nome).2 = false ∧
    (carregarDados fs s nome).1.cachedFile = s.cachedFile ∧
    (carregarDados fs s nome).1.leituras = s.leituras ∧
    (carregarDados fs s nome).1.dados =
      (if d.isSome then none else s.dados) ∧
    ∀ s2 : Estado, s2.dados = none →
      ∀ nome2 : String, carregarDados fs s2 nome2 = (s2, false) := by
  have h1 : carregarDados fs s nome =
      ((if d.isSome then { s with dados := none } else s), false) := by
    simp only [carregarDados, hd, hfail]
    rw [if_neg hmiss]
  refine ⟨by rw [h1], ?_, ?_, ?_, ?_⟩
  · rw [h1]
    cases d <;> rfl
  · rw [h1]
    cases d <;> rfl
  · rw [h1]
    cases d <;> simp [hd]
  · intro s2 h2 nome2
    obtain ⟨sd, sc, sl⟩ := s2
    dsimp only at h2
    subst h2
    simp [carregarDados]

/-- Witness for the amended C6: a state holding a previously loaded (empty)
table of `a.csv` fails to load `b.csv` and loses the table. -/
theorem carregarDados_falha_sem_resultado_parcial_witness :
    (carregarDados fsExemplo ⟨some (some []), some "a.csv", 1⟩ "b.csv").2 =
      false ∧
    (carregarDados fsExemplo ⟨some (some []), some "a.csv", 1⟩
        "b.csv").1.cachedFile = some "a.csv" ∧
    (carregarDados fsExemplo ⟨some (some []), some "a.csv", 1⟩
        "b.csv").1.leituras = 1 ∧
    (carregarDados fsExemplo ⟨some (some []), some "a.csv", 1⟩
        "b.csv").1.dados =
      (if (some ([] : List Registro)).isSome then none
       else (⟨some (some []), some "a.csv", 1⟩ : Estado).dados) ∧
    ∀ s2 : Estado, s2.dados = none →
      ∀ nome2 : String, carregarDados fsExemplo s2 nome2 = (s2, false) :=
  carregarDados_falha_sem_resultado_parcial fsExemplo
    ⟨some (some []), some "a.csv", 1⟩ "b.csv" (some [])
    rfl (by simp) (by with_unfolding_all rfl)

/-- A two-row, two-status dataset with valid dates, used for the
status-filter claims. -/
def exemploDoisStatus : List Registro :=
  [{ tecnico := "X", dataTOA := some (1, 2, 2024), contrato := "c1",
     status := "Executado", tipoServico := "INST", valorTecnico := 0,
     valorEmpresa := 100, base := "A", grupo := "Outros" },
   { tecnico := "Y", dataTOA := some (2, 2, 2024), contrato := "c2",
     status := "Pendente", tipoServico := "INST", valorTecnico := 0,
     valorEmpresa := 50, base := "B", grupo := "Outros" }]

/-- Counterexample to C5: in the Resumo-por-Base page's filter application
an empty status selection is not treated as a caller error — the status
filter is silently skipped and all rows come back (here both rows of a
two-status dataset), rather than an error or zero rows. -/
theorem resumoBase_status_vazio_devolve_tudo :
    filtrosResumoBase exemploDoisStatus "Todos" "Todas" [] =
      exemploDoisStatus ∧
    (filtrosResumoBase exemploDoisStatus "Todos" "Todas" []).length = 2 :=
  ⟨by with_unfolding_all rfl, by with_unfolding_all rfl⟩

/-- C5 amended: the two report filter pipelines treat an empty status
selection differently.  `analisar_produtividade` treats it as a caller
error — it reports that at least one status must be selected and produces
no result rows — while the Resumo-por-Base page silently skips the status
filter and returns the group/base-filtered rows unrestricted. -/
theorem status_vazio_tratamento_por_relatorio (dados : List Registro)
    (grupo base : String)
    (hdatas : dados.filterMap (fun r => r.dataTOA) ≠ []) :
    filtrosProdutividade dados grupo base [] =
      SaidaProdutividade.avisoSelecioneStatus ∧
    filtrosResumoBase dados grupo base [] = filtraGrupoBase dados grupo base := by
  constructor
  · match hv : dados.filterMap (fun r => r.dataTOA) with
    | [] => exact absurd hv hdatas
    | d0 :: resto =>
      simp only [filtrosProdutividade, hv]
      rw [if_pos trivial]
  · unfold filtrosResumoBase
    rw [if_neg (by simp)]

/-- Witness for the amended C5 on the two-status dataset. -/
theorem status_vazio_tratamento_por_relatorio_witness :
    filtrosProdutividade exemploDoisStatus "Todos" "Todas" [] =
      SaidaProdutividade.avisoSelecioneStatus ∧
    filtrosResumoBase exemploDoisStatus "Todos" "Todas" [] =
      filtraGrupoBase exemploDoisStatus "Todos" "Todas" :=
  status_vazio_tratamento_por_relatorio exemploDoisStatus "Todos" "Todas"
    (by
      rw [show exemploDoisStatus.filterMap (fun r => r.dataTOA) =
          [(1, 2, 2024), (2, 2, 2024)] from by with_unfolding_all rfl]
      simp)

end Basicdash
